import Mathlib

/-!
Shallow embedding of `src/dippy_validation_api/validation_api.py`
(dippy-bittensor-subnet validation API orchestrator).

The embedding follows the source file closely:
* leaderboard rows (pandas DataFrame rows) become a `List Row`;
* the pandas `.loc[hash == h, col] = v` updates become `setRow`;
* the gateway endpoint `evaluate_model` (lines 306-394), the worker body
  `evaluate_model_logic` (lines 136-270), the worker loop
  `model_evaluation_worker` (lines 119-133), the shutdown pruning in the
  `finally` block (lines 482-508) and the startup column check
  (lines 447-467) become pure functions;
* the two external scoring services are modelled as oracles
  `Nat → Attempt _` giving the outcome of the n-th POST attempt; attempt n
  is made n seconds after the first attempt (the loop sleeps 1 s between
  attempts, line 177/225);
* float scores are modelled as `ℚ`; nullable JSON fields as `Option ℚ`;
* the hash travels as its raw string, exactly as in the source: the store
  keys rows on the string (lines 141/276/288/315/320) while only the
  fingerprint check at line 309 converts it with `int(request.hash)`,
  modelled by `pyInt`.
-/

set_option maxHeartbeats 1000000
set_option maxRecDepth 4000

namespace DippyValidation

/-! ### Constants (source lines 29-55, 448) -/

def QUALITATIVE_SCORE_WEIGHT : ℚ := 0.82

def MODEL_SIZE_SCORE_WEIGHT : ℚ := 0.06

def LATENCY_SCORE_WEIGHT : ℚ := 0.06

def VIBE_SCORE_WEIGHT : ℚ := 0.06

def MAX_MODEL_SIZE : ℕ := 30 * 1024 * 1024 * 1024

def MIN_REPO_SIZE : ℕ := 10 * 1024 * 1024

def MAX_REPO_SIZE : ℕ := 80 * 1024 * 1024 * 1024

/-- The fixed on-disk column schema (source line 448). -/
def leaderboard_columns : List String :=
  ["hash", "repo_namespace", "repo_name", "chat_template_type", "model_size_score",
   "qualitative_score", "latency_score", "vibe_score", "total_score", "timestamp",
   "status", "notes"]

/-- `chat_template_mappings` (source lines 67-75): supported template types and
their prompt template files. -/
def chat_template_mappings : List (String × String) :=
  [("vicuna", "prompt_templates/vicuna_prompt_template.jinja"),
   ("chatml", "prompt_templates/chatml_prompt_template.jinja"),
   ("mistral", "prompt_templates/mistral_prompt_template.jinja"),
   ("zephyr", "prompt_templates/zephyr_prompt_template.jinja"),
   ("alpaca", "prompt_templates/alpaca_prompt_template.jinja"),
   ("llama2", "prompt_templates/llama2_prompt_template.jinja"),
   ("llama3", "prompt_templates/llama3_prompt_template.jinja")]

/-! ### Data model -/

/-- Row lifecycle status strings used by the source
("QUEUED", "RUNNING", "COMPLETED", "FAILED"). -/
inductive Status where
  | QUEUED
  | RUNNING
  | COMPLETED
  | FAILED
  deriving DecidableEq

/-- One leaderboard row (the 12-column schema of source lines 91-104).
The hash column has dtype `str` (line 92) and is stored and compared as the
raw string (`leaderboard['hash'] == request.hash` / `== hash` at lines 141,
276, 288, 315 and the insert at line 320); only the fingerprint check at
line 309 converts the request hash with `int(...)`.  Scores use the
sentinel `-1.0` at creation (lines 324-328). -/
structure Row where
  hash : String
  repo_namespace : String
  repo_name : String
  chat_template_type : String
  model_size_score : ℚ
  qualitative_score : ℚ
  latency_score : ℚ
  vibe_score : ℚ
  total_score : ℚ
  timestamp : ℕ
  status : Status
  notes : String
  deriving DecidableEq

/-- `EvaluateModelRequest` (source lines 57-63). -/
structure EvaluateModelRequest where
  repo_namespace : String
  repo_name : String
  chat_template_type : String
  hash : String
  revision : String := "main"
  competition_id : String := "d1"
  deriving DecidableEq

/-- The "score" part of the payload returned by `get_json_result`
(source lines 292-301). -/
structure ScorePayload where
  model_size_score : ℚ
  qualitative_score : ℚ
  latency_score : ℚ
  vibe_score : ℚ
  total_score : ℚ
  deriving DecidableEq

/-- The full payload returned by `get_json_result`: scores plus status. -/
structure JsonResult where
  score : ScorePayload
  status : Status
  deriving DecidableEq

/-- Modelled from the spec: `regenerate_hash` lives in
`utilities.validation_utils`, which is not under `src/`; the spec says only
that it is a deterministic fingerprint of
`(repo_namespace, repo_name, chat_template_type, competition_id)`.
Embedded as a concrete deterministic hash of the four fields; the claims
about this repository use nothing about it beyond determinism. -/
def regenerate_hash (repo_namespace repo_name chat_template_type competition_id : String) : ℕ :=
  ((repo_namespace ++ "/" ++ repo_name ++ "/" ++ chat_template_type ++ "/" ++ competition_id).toList.foldl
    (fun a c => a * 31 + c.toNat) 7)

/-- Decimal digit run accepted by Python's `int(str)`: one or more digits. -/
def pyIntDigits (cs : List Char) : Option ℕ :=
  if cs.isEmpty then none
  else if cs.all (fun c => c.isDigit) then
    some (cs.foldl (fun acc c => acc * 10 + (c.toNat - 48)) 0)
  else none

/-- Python's `int(str)` builtin as used at line 309, on the subset relevant
here: an optional single `+` or `-` sign followed by decimal digits
(surrounding whitespace and underscore separators of full Python are left
out); any other string raises `ValueError` (`none`).  It is deliberately not
injective, like the builtin: `"07"`, `"+7"` and `"7"` all parse to `7`. -/
def pyInt (s : String) : Option ℤ :=
  match s.toList with
  | '+' :: rest => (pyIntDigits rest).map (fun n => (n : ℤ))
  | '-' :: rest => (pyIntDigits rest).map (fun n => -(n : ℤ))
  | cs => (pyIntDigits cs).map (fun n => (n : ℤ))

/-! ### Leaderboard store operations -/

/-- A pandas `leaderboard.loc[leaderboard['hash'] == h, ...] = ...` update:
apply `f` to every row whose hash equals `h`. -/
def setRow (lb : List Row) (h : String) (f : Row → Row) : List Row :=
  lb.map (fun r => if r.hash == h then f r else r)

/-- `update_leaderboard_status` (source lines 273-283): set the status of
every row with this hash; overwrite the notes only when `notes` is non-empty
(the `if notes:` truthiness test at line 277). -/
def update_leaderboard_status (lb : List Row) (h : String) (status : Status) (notes : String) : List Row :=
  setRow lb h (fun r => { r with status := status, notes := if notes = "" then r.notes else notes })

/-- `get_json_result` (source lines 286-303): if any row has this hash,
return the scores and status of the first such row (`iloc[0]`), else `none`.
(The source's `else: None` at line 303 lacks a `return`, but a Python
function falling off the end returns `None` as well.) -/
def get_json_result (lb : List Row) (h : String) : Option JsonResult :=
  (lb.find? (fun r => r.hash == h)).map fun r =>
    { score := { model_size_score := r.model_size_score,
                 qualitative_score := r.qualitative_score,
                 latency_score := r.latency_score,
                 vibe_score := r.vibe_score,
                 total_score := r.total_score },
      status := r.status }

/-- First matching row's status, for stating properties. -/
def rowStatus (lb : List Row) (h : String) : Option Status :=
  (lb.find? (fun r => r.hash == h)).map (fun r => r.status)

/-- First matching row's notes, for stating properties. -/
def rowNotes (lb : List Row) (h : String) : Option String :=
  (lb.find? (fun r => r.hash == h)).map (fun r => r.notes)

/-- First matching row's total_score, for stating properties. -/
def rowTotal (lb : List Row) (h : String) : Option ℚ :=
  (lb.find? (fun r => r.hash == h)).map (fun r => r.total_score)

/-- Number of rows carrying a given hash. -/
def hashCount (lb : List Row) (h : String) : ℕ :=
  (lb.filter (fun r => r.hash == h)).length

/-! ### Submission gateway (`evaluate_model`, source lines 306-394) -/

/-- Outcomes of the two repository-metadata lookups the gateway performs.
`check_model_repo_size` (line 350) may raise (`Except.error`), return `None`
(`Except.ok none`) or return a byte size; `get_model_size` (line 374)
returns `None` or a byte size.  Both live in `utilities.validation_utils`,
outside `src/`, and are treated by the spec as opaque collaborators, so they
enter the model as an environment. -/
structure AdmissionEnv where
  repo_size : Except String (Option ℕ)
  model_size : Option ℕ

/-- Result of one gateway call: the leaderboard afterwards, the jobs this
call pushed onto the evaluation queue, and the HTTP response
(`Except.error` is an `HTTPException`). -/
structure GatewayOutcome where
  leaderboard : List Row
  queued : List EvaluateModelRequest
  response : Except String (Option JsonResult)

/-- Fresh QUEUED row inserted by the gateway (source lines 319-332). -/
def newQueuedRow (req : EvaluateModelRequest) (now : ℕ) : Row :=
  { hash := req.hash, repo_namespace := req.repo_namespace, repo_name := req.repo_name,
    chat_template_type := req.chat_template_type,
    model_size_score := -1, qualitative_score := -1, latency_score := -1, vibe_score := -1,
    total_score := -1, timestamp := now, status := .QUEUED, notes := "" }

/-- Admission-failure path shared by source lines 341-387: set the row to
FAILED with the note and return the row's payload (HTTP 200, not an error). -/
def failAdmission (lb : List Row) (h : String) (note : String) : GatewayOutcome :=
  let lb2 := update_leaderboard_status lb h .FAILED note
  ⟨lb2, [], .ok (get_json_result lb2 h)⟩

def repo_size_bound_note (sz : ℕ) : String :=
  "Model repo size is not up to requirments: " ++ toString sz ++
    " bytes. Should be less than " ++ toString MAX_REPO_SIZE ++
    " bytes and greater than " ++ toString MIN_REPO_SIZE ++ " bytes"

def model_size_note (ms : ℕ) : String :=
  "Model size is too large: " ++ toString ms ++ " bytes. Should be less than " ++
    toString MAX_MODEL_SIZE ++ " bytes"

def repo_size_missing_note : String :=
  "Error checking model repo size. Make sure the model repository exists and is accessible."

def model_size_missing_note : String :=
  "Error getting model size. Make sure the model.index.safetensors.json file exists in the model repository. And it has the metadata->total_size field."

/-- The `/evaluate_model` endpoint (source lines 306-394). -/
def evaluate_model (env : AdmissionEnv) (now : ℕ) (req : EvaluateModelRequest) (lb : List Row) :
    GatewayOutcome :=
  -- line 309: verify int(request.hash) against the recomputed fingerprint;
  -- an unparseable hash makes int() itself raise ValueError
  match pyInt req.hash with
  | none => ⟨lb, [], .error "ValueError: invalid literal for int() with base 10"⟩
  | some hashInt =>
    if hashInt ≠ (regenerate_hash req.repo_namespace req.repo_name req.chat_template_type req.competition_id : ℤ) then
      ⟨lb, [], .error "Hash does not match the model details"⟩
    else
      -- lines 313-338: atomically dedup-check on the RAW hash string;
      -- an existing row returns unchanged
      match get_json_result lb req.hash with
      | some current_status => ⟨lb, [], .ok (some current_status)⟩
      | none =>
        -- lines 319-335: insert the fresh QUEUED row (pd.concat puts it first)
        let lb1 := newQueuedRow req now :: lb
        -- lines 341-346: template check happens after the insert
        if ! (chat_template_mappings.map Prod.fst).contains req.chat_template_type then
          failAdmission lb1 req.hash ("Chat template type not supported: " ++ req.chat_template_type)
        else
          -- lines 349-371: repo size lookup and bounds
          match env.repo_size with
          | .error e => failAdmission lb1 req.hash ("Error checking model repo size: " ++ e)
          | .ok none => failAdmission lb1 req.hash repo_size_missing_note
          | .ok (some model_repo_size) =>
            if model_repo_size > MAX_REPO_SIZE ∨ model_repo_size < MIN_REPO_SIZE then
              failAdmission lb1 req.hash (repo_size_bound_note model_repo_size)
            else
              -- lines 374-387: declared model size via safetensors index
              match env.model_size with
              | none => failAdmission lb1 req.hash model_size_missing_note
              | some model_size =>
                if model_size / 4 > MAX_MODEL_SIZE then
                  failAdmission lb1 req.hash (model_size_note model_size)
                else
                  -- lines 390-394: enqueue and return the current (QUEUED) state
                  ⟨lb1, [req], .ok (get_json_result lb1 req.hash)⟩

/-- Admission checks of source lines 349-387 as a predicate on the
environment: the repo size resolves and lies within bounds, and the declared
model size resolves with `size / 4 ≤ MAX_MODEL_SIZE`. -/
def admission_passes (env : AdmissionEnv) : Bool :=
  match env.repo_size with
  | .ok (some sz) =>
    decide (sz ≤ MAX_REPO_SIZE) && decide (MIN_REPO_SIZE ≤ sz) &&
      (match env.model_size with
       | some ms => decide (ms / 4 ≤ MAX_MODEL_SIZE)
       | none => false)
  | _ => false

/-! ### Scoring-service retry loop (source lines 153-184 and 201-232) -/

/-- Outcome of one POST to a scoring service: a transport failure
(`requests.post` raised), a non-200 response with its content, or a 200
response with its parsed JSON body. -/
inductive Attempt (α : Type) where
  | transport (msg : String)
  | http (content : String)
  | success (body : α)

def Attempt.isSuccess {α : Type} : Attempt α → Bool
  | .success _ => true
  | _ => false

/-- Result of the retry loop: the body and the index of the succeeding
attempt, or the error text written to the FAILED row. -/
inductive RetryResult (α : Type) where
  | ok (body : α) (attempt : ℕ)
  | failed (errText : String)
  deriving DecidableEq

def retryErrText (svc : String) (msg : String) : String :=
  "Error calling " ++ svc ++ " API with message: " ++ msg

/-- The `while True` retry loop (lines 155-177 / 204-225).  Attempt `n` is
made `n` seconds after the first attempt (the loop sleeps 1 s between
attempts).  On a 200 response the loop breaks; on any failure the deadline
`time.time() - start_time > 30` is tested and, past it, the loop aborts with
the error text (the response variable keeps the content of the last response
actually received, `lastResp`); otherwise the loop sleeps and retries.  The
deadline test occurs only inside the failure handler, so the loop always
terminates by attempt 31. -/
def retryFrom {α : Type} (svc : String) (oracle : ℕ → Attempt α) (n : ℕ) (lastResp : Option String) :
    RetryResult α :=
  match oracle n with
  | .success b => .ok b n
  | .http content =>
    if h : n > 30 then .failed (retryErrText svc content)
    else retryFrom svc oracle (n + 1) (some content)
  | .transport msg =>
    if h : n > 30 then .failed (retryErrText svc (lastResp.getD msg))
    else retryFrom svc oracle (n + 1) lastResp
termination_by 31 - n
decreasing_by
  all_goals omega

/-! ### Evaluation worker (source lines 119-270) -/

/-- Parsed JSON body of a 200 response from the eval_score service
(lines 187-190); each field may be JSON null. -/
structure ABody where
  eval_score : Option ℚ
  latency_score : Option ℚ
  model_size_score : Option ℚ
  deriving DecidableEq

/-- Parsed JSON body of a 200 response from the vibe_score service
(line 234). -/
structure BBody where
  vibe_score : Option ℚ
  deriving DecidableEq

/-- Worker-side environment for one job: the outcome of the n-th POST to
each scoring service, and whether the final COMPLETED write-back through the
manager proxy (lines 245-254) fails. -/
structure WorkerEnv where
  oracleA : ℕ → Attempt ABody
  oracleB : ℕ → Attempt BBody
  final_update_fails : Bool

/-- Result of one `evaluate_model_logic` run: the leaderboard afterwards,
the restart signals POSTed to the scoring services' shutdown endpoints
(lines 171, 182, 219, 230 — best-effort, their own failures are ignored),
and either the returned score dict or the exception that escaped. -/
structure WorkerOutcome where
  leaderboard : List Row
  restart_signals : List String
  response : Except String ScorePayload

/-- Python's `float(None)` raises this `TypeError` (lines 194-196 apply
`float` to each eval_score-service field). -/
def floatNoneError : String :=
  "float() argument must be a string or a number, not NoneType"

/-- Line 260 calls `update_leaderboard_status(request.hash, "FAILED",
failure_reason)` without the leading `namespace` argument, so inside the
callee `namespace.leaderboard` is an attribute access on a string and raises
before anything is written. -/
def finalUpdateRecoveryError : String :=
  "AttributeError: str object has no attribute leaderboard"

/-- The total-score computation of source lines 239-242. -/
def total_score_formula (model_size_score eval_score latency_score vibe_score : ℚ) : ℚ :=
  model_size_score * MODEL_SIZE_SCORE_WEIGHT + eval_score * QUALITATIVE_SCORE_WEIGHT
    + latency_score * LATENCY_SCORE_WEIGHT + vibe_score * VIBE_SCORE_WEIGHT

/-- `evaluate_model_logic` (source lines 136-270), the per-job protocol.

The `None`-score check of line 236 tests all four extracted scores, but the
three eval_score-service fields already went through `float(...)` at lines
194-196 — a `None` there raises the `TypeError` at that earlier point.  The
partial-score block (lines 193-199) mutates a local copy obtained from the
manager proxy and publishes it only by the `namespace.leaderboard`
assignment at line 198, after all three conversions, so when a conversion
raises nothing of the block is visible and the store still shows the
RUNNING state; by line 236 only `vibe_score` can still be `None`.  The
nested matches below mirror this.  The final COMPLETED block (lines
245-254) likewise mutates a local proxy copy, so when it fails nothing of
it is visible; its `except` recovery (line 260) then raises itself (see
`finalUpdateRecoveryError`) without writing FAILED. -/
def evaluate_model_logic (env : WorkerEnv) (req : EvaluateModelRequest) (lb : List Row) :
    WorkerOutcome :=
  -- lines 141-147: the row must already exist
  if ! lb.any (fun r => r.hash == req.hash) then
    ⟨lb, [], .error ("Model " ++ req.hash ++ " not found in the leaderboard")⟩
  else
    -- line 150: transition to RUNNING
    let lb1 := update_leaderboard_status lb req.hash .RUNNING "Model evaluation in progress"
    -- lines 153-177: eval_score phase with bounded retry
    match retryFrom "eval_score" env.oracleA 0 none with
    | .failed errText =>
      -- lines 164-175: FAILED with the error text, restart signal, abort
      ⟨update_leaderboard_status lb1 req.hash .FAILED errText, ["eval_score"], .error errText⟩
    | .ok bodyA _ =>
      -- lines 179-184: restart signal also after success
      -- lines 194-196: float() of each field; a None field raises before the
      -- local proxy copy is published at line 198, so the store keeps lb1
      match bodyA.model_size_score with
      | none => ⟨lb1, ["eval_score"], .error floatNoneError⟩
      | some model_size_score =>
        match bodyA.eval_score with
        | none => ⟨lb1, ["eval_score"], .error floatNoneError⟩
        | some eval_score =>
          match bodyA.latency_score with
          | none => ⟨lb1, ["eval_score"], .error floatNoneError⟩
          | some latency_score =>
            -- lines 193-199: partial scores plus the progress note, published
            let lb2 := setRow (setRow (setRow (setRow lb1
              req.hash (fun r => { r with model_size_score := model_size_score }))
              req.hash (fun r => { r with qualitative_score := eval_score }))
              req.hash (fun r => { r with latency_score := latency_score }))
              req.hash (fun r => { r with notes := "Now computing vibe score" })
            -- lines 201-225: vibe_score phase with bounded retry
            match retryFrom "vibe_score" env.oracleB 0 none with
            | .failed errText =>
              ⟨update_leaderboard_status lb2 req.hash .FAILED errText,
                ["eval_score", "vibe_score"], .error errText⟩
            | .ok bodyB _ =>
              -- lines 227-232: restart signal also after success
              match bodyB.vibe_score with
              | none =>
                -- lines 236-237: defensive check raises an HTTPException
                ⟨lb2, ["eval_score", "vibe_score"],
                  .error "Error calculating scores, one or more scores are None"⟩
              | some vibe_score =>
                -- lines 239-242
                let total_score := total_score_formula model_size_score eval_score latency_score vibe_score
                if env.final_update_fails then
                  -- lines 256-262: the recovery call is malformed and raises
                  ⟨lb2, ["eval_score", "vibe_score"], .error finalUpdateRecoveryError⟩
                else
                  -- lines 245-254: write everything, COMPLETED, clear notes
                  let lb3 := setRow lb2 req.hash (fun r =>
                    { r with model_size_score := model_size_score, qualitative_score := eval_score,
                             latency_score := latency_score, vibe_score := vibe_score,
                             total_score := total_score, status := .COMPLETED, notes := "" })
                  ⟨lb3, ["eval_score", "vibe_score"],
                    .ok ⟨model_size_score, eval_score, latency_score, vibe_score, total_score⟩⟩

/-- One queue item handed to the worker. -/
structure Job where
  request : EvaluateModelRequest
  env : WorkerEnv

/-- `model_evaluation_worker` (source lines 119-133): consume queue items in
order until the sentinel; every exception from `evaluate_model_logic` is
caught and logged (lines 128-129) and the loop proceeds with the next item. -/
def model_evaluation_worker : List Job → List Row → List Row
  | [], lb => lb
  | job :: rest, lb =>
    model_evaluation_worker rest (evaluate_model_logic job.env job.request lb).leaderboard

/-! ### Shutdown and startup (source lines 447-508) -/

/-- The shutdown `finally` block (lines 482-508) as it affects the store:
first every row still QUEUED is dropped and the result saved (lines
488-491), then — after joining the worker — every row still RUNNING is
dropped and the result saved (lines 504-507).  The function gives the final
persisted snapshot. -/
def shutdown_prune (lb : List Row) : List Row :=
  (lb.filter (fun r => r.status != Status.QUEUED)).filter (fun r => r.status != Status.RUNNING)

/-- The startup column check (lines 461-467):
`all(col in leaderboard.columns for col in columns)`; startup proceeds
exactly when this holds, else `sys.exit(1)`. -/
def loader_accepts (onDiskColumns : List String) : Bool :=
  leaderboard_columns.all (fun c => onDiskColumns.contains c)

/-! ### Concrete fixtures used by witnesses and counterexamples -/

/-- The canonical decimal writing of `reqW`'s fingerprint. -/
def hashW : String := toString (regenerate_hash "acme" "model" "vicuna" "d1")

/-- The canonical decimal writing of `reqW2`'s fingerprint. -/
def hashW2 : String := toString (regenerate_hash "acme" "other" "chatml" "d1")

/-- A well-formed request (its hash string is the recomputed fingerprint,
written canonically). -/
def reqW : EvaluateModelRequest :=
  { repo_namespace := "acme", repo_name := "model", chat_template_type := "vicuna",
    hash := hashW }

/-- The same submission tuple as `reqW` but with the int-equal,
non-canonical hash string "0…": `int()` parses it to the same fingerprint,
yet as a string it differs from `reqW.hash`. -/
def reqWPad : EvaluateModelRequest := { reqW with hash := "0" ++ hashW }

/-- A second well-formed request with a different identity. -/
def reqW2 : EvaluateModelRequest :=
  { repo_namespace := "acme", repo_name := "other", chat_template_type := "chatml",
    hash := hashW2 }

/-- A request whose caller-supplied hash parses but does not match the
fingerprint. -/
def reqBadHash : EvaluateModelRequest :=
  { repo_namespace := "acme", repo_name := "model", chat_template_type := "vicuna", hash := "0" }

/-- A request whose caller-supplied hash does not even parse as an int. -/
def reqUnparseable : EvaluateModelRequest :=
  { repo_namespace := "acme", repo_name := "model", chat_template_type := "vicuna",
    hash := "not-a-number" }

/-- A well-fingerprinted request for an unsupported chat template. -/
def reqBadTemplate : EvaluateModelRequest :=
  { repo_namespace := "acme", repo_name := "model", chat_template_type := "nonexistent",
    hash := toString (regenerate_hash "acme" "model" "nonexistent" "d1") }

/-- Admission environment passing all checks: repo size 20 MB, tiny declared size. -/
def envOkAdmission : AdmissionEnv :=
  { repo_size := .ok (some (20 * 1024 * 1024)), model_size := some 1000 }

/-- Spec example: repo size 5 MB, below `MIN_REPO_SIZE` (10 MB). -/
def envSmallRepo : AdmissionEnv :=
  { repo_size := .ok (some (5 * 1024 * 1024)), model_size := some 1000 }

/-- eval_score service succeeding at once with eval 0.5, latency 0.8, size 1.0. -/
def oracleAOk : ℕ → Attempt ABody := fun _ => .success ⟨some (1/2), some (4/5), some 1⟩

/-- vibe_score service succeeding at once with vibe 0.9. -/
def oracleBOk : ℕ → Attempt BBody := fun _ => .success ⟨some (9/10)⟩

/-- Both phases succeed, the final write succeeds. -/
def envHappy : WorkerEnv := ⟨oracleAOk, oracleBOk, false⟩

/-- Both phases succeed but the final COMPLETED write-back fails. -/
def envPersistFail : WorkerEnv := ⟨oracleAOk, oracleBOk, true⟩

/-- Both phases succeed but the vibe_score JSON field is null. -/
def envVibeNone : WorkerEnv := ⟨oracleAOk, fun _ => .success ⟨none⟩, false⟩

/-- eval_score service failing at attempts 0..30 (the first 31 seconds) and
succeeding at attempt 31, i.e. 31 s after the first attempt. -/
def lateSuccessOracleA : ℕ → Attempt ABody :=
  fun n => if n < 31 then .transport "Connection refused" else .success ⟨some (1/2), some (4/5), some 1⟩

/-- Phase A succeeds only 31 s after its first attempt; phase B at once. -/
def envLateSuccess : WorkerEnv := ⟨lateSuccessOracleA, oracleBOk, false⟩

/-- eval_score service that never responds. -/
def envNeverA : WorkerEnv := ⟨fun _ => .transport "Connection refused", oracleBOk, false⟩

/-- vibe_score service that never responds (eval_score phase succeeds). -/
def envNeverB : WorkerEnv := ⟨oracleAOk, fun _ => .transport "Connection refused", false⟩

/-- The QUEUED row belonging to `reqW`. -/
def rowW : Row := newQueuedRow reqW 0

/-- The QUEUED row belonging to `reqW2`. -/
def rowW2 : Row := newQueuedRow reqW2 0

def rowQueuedW : Row := { newQueuedRow reqW 0 with hash := "1" }

def rowRunningW : Row := { newQueuedRow reqW 0 with hash := "2", status := .RUNNING }

def rowCompletedW : Row := { newQueuedRow reqW 0 with hash := "3", status := .COMPLETED }

def rowFailedW : Row := { newQueuedRow reqW 0 with hash := "4", status := .FAILED }

/-- A leaderboard holding one row in each lifecycle state. -/
def lbShutdownW : List Row := [rowQueuedW, rowRunningW, rowCompletedW, rowFailedW]

/-! ### Helper lemmas about the store operations -/

theorem find?_hash_setRow (lb : List Row) (h : String) (f : Row → Row)
    (hf : ∀ r, (f r).hash = r.hash) :
    (setRow lb h f).find? (fun r => r.hash == h) = (lb.find? (fun r => r.hash == h)).map f := by
  induction lb with
  | nil => rfl
  | cons a t ih =>
    by_cases hb : a.hash = h
    · simp [setRow, List.find?_cons, hb, hf]
    · simp only [setRow] at ih
      simp at ih
      simp [setRow, List.find?_cons, hb, hf, ih]

theorem hashCount_setRow (lb : List Row) (h : String) (f : Row → Row)
    (hf : ∀ r, (f r).hash = r.hash) :
    hashCount (setRow lb h f) h = hashCount lb h := by
  induction lb with
  | nil => rfl
  | cons a t ih =>
    by_cases hb : a.hash = h
    · simp only [hashCount, setRow] at ih
      simp at ih
      simp [hashCount, setRow, List.filter_cons, hb, hf, ih]
    · simp only [hashCount, setRow] at ih
      simp at ih
      simp [hashCount, setRow, List.filter_cons, hb, hf, ih]

theorem exists_find?_of_any (lb : List Row) (h : String)
    (ha : lb.any (fun r => r.hash == h) = true) :
    ∃ r0, lb.find? (fun r => r.hash == h) = some r0 := by
  rcases List.any_eq_true.mp ha with ⟨r, hr, hpr⟩
  exact Option.isSome_iff_exists.mp (List.find?_isSome.mpr ⟨r, hr, hpr⟩)

theorem find?_update (lb : List Row) (h : String) (st : Status) (nt : String) :
    (update_leaderboard_status lb h st nt).find? (fun r => r.hash == h) =
      (lb.find? (fun r => r.hash == h)).map
        (fun r => { r with status := st, notes := if nt = "" then r.notes else nt }) := by
  unfold update_leaderboard_status
  exact find?_hash_setRow lb h _ (fun r => rfl)

theorem hashCount_update (lb : List Row) (h : String) (st : Status) (nt : String) :
    hashCount (update_leaderboard_status lb h st nt) h = hashCount lb h := by
  unfold update_leaderboard_status
  exact hashCount_setRow lb h _ (fun r => rfl)

theorem rowStatus_update (lb : List Row) (h : String) (st : Status) (nt : String) (r0 : Row)
    (hfind : lb.find? (fun r => r.hash == h) = some r0) :
    rowStatus (update_leaderboard_status lb h st nt) h = some st := by
  unfold rowStatus
  rw [find?_update, hfind]
  rfl

theorem rowNotes_update (lb : List Row) (h : String) (st : Status) (nt : String) (r0 : Row)
    (hfind : lb.find? (fun r => r.hash == h) = some r0) (hnt : nt ≠ "") :
    rowNotes (update_leaderboard_status lb h st nt) h = some nt := by
  unfold rowNotes
  rw [find?_update, hfind]
  simp [hnt]

theorem rowNotes_update_of_empty (lb : List Row) (h : String) (st : Status) (nt : String) (r0 : Row)
    (hfind : lb.find? (fun r => r.hash == h) = some r0) (h0 : r0.notes = "") :
    rowNotes (update_leaderboard_status lb h st nt) h = some nt := by
  unfold rowNotes
  rw [find?_update, hfind]
  by_cases hnt : nt = ""
  · simp [hnt, h0]
  · simp [hnt]

theorem get_json_result_eq_none_iff (lb : List Row) (h : String) :
    get_json_result lb h = none ↔ lb.find? (fun r => r.hash == h) = none := by
  unfold get_json_result
  cases lb.find? (fun r => r.hash == h) <;> simp

theorem hashCount_eq_zero_of_find?_none (lb : List Row) (h : String)
    (hf : lb.find? (fun r => r.hash == h) = none) :
    hashCount lb h = 0 := by
  unfold hashCount
  rw [List.length_eq_zero, List.filter_eq_nil_iff]
  intro a ha
  simpa using List.find?_eq_none.mp hf a ha

theorem evaluate_model_shape (env : AdmissionEnv) (now : ℕ) (req : EvaluateModelRequest)
    (lb : List Row)
    (hfp : pyInt req.hash = some (regenerate_hash req.repo_namespace req.repo_name req.chat_template_type req.competition_id : ℤ))
    (hfresh : get_json_result lb req.hash = none) :
    (evaluate_model env now req lb).leaderboard = newQueuedRow req now :: lb ∨
    ∃ note, (evaluate_model env now req lb).leaderboard =
      update_leaderboard_status (newQueuedRow req now :: lb) req.hash .FAILED note := by
  have hne : ¬ ((regenerate_hash req.repo_namespace req.repo_name req.chat_template_type req.competition_id : ℤ) ≠ (regenerate_hash req.repo_namespace req.repo_name req.chat_template_type req.competition_id : ℤ)) := by
    simp
  unfold evaluate_model failAdmission
  rw [hfp]
  dsimp only
  rw [if_neg hne, hfresh]
  dsimp only
  split
  · exact Or.inr ⟨_, rfl⟩
  · split
    · exact Or.inr ⟨_, rfl⟩
    · exact Or.inr ⟨_, rfl⟩
    · split
      · exact Or.inr ⟨_, rfl⟩
      · split
        · exact Or.inr ⟨_, rfl⟩
        · split
          · exact Or.inr ⟨_, rfl⟩
          · exact Or.inl rfl

/-! ### Helper lemmas about the retry loop -/

theorem retryFrom_ok_of_first_success {α : Type} (svc : String) (oracle : ℕ → Attempt α) (b : α)
    (n : ℕ) (hn : n ≤ 31) (hs : oracle n = .success b)
    (hf : ∀ m, m < n → (oracle m).isSuccess = false) :
    retryFrom svc oracle 0 none = .ok b n := by
  suffices h : ∀ k start lastResp, start + k = n → retryFrom svc oracle start lastResp = .ok b n by
    exact h n 0 none (by omega)
  intro k
  induction k with
  | zero =>
    intro start lastResp hk
    have hsn : start = n := by omega
    subst hsn
    rw [retryFrom.eq_def, hs]
  | succ k ih =>
    intro start lastResp hk
    have hlt : start < n := by omega
    have h30 : ¬ start > 30 := by omega
    have hns := hf start hlt
    rw [retryFrom.eq_def]
    cases ho : oracle start with
    | success b2 => rw [ho] at hns; simp [Attempt.isSuccess] at hns
    | http content =>
      dsimp only
      rw [dif_neg h30]
      exact ih (start + 1) (some content) (by omega)
    | transport msg =>
      dsimp only
      rw [dif_neg h30]
      exact ih (start + 1) lastResp (by omega)

theorem retryFrom_failed_of_no_success {α : Type} (svc : String) (oracle : ℕ → Attempt α)
    (hf : ∀ m, m ≤ 31 → (oracle m).isSuccess = false) :
    ∃ e, retryFrom svc oracle 0 none = .failed e := by
  suffices h : ∀ k start lastResp, start + k = 31 →
      ∃ e, retryFrom svc oracle start lastResp = .failed e by
    exact h 31 0 none rfl
  intro k
  induction k with
  | zero =>
    intro start lastResp hk
    have h31 : start = 31 := by omega
    subst h31
    have hns := hf 31 (le_refl 31)
    rw [retryFrom.eq_def]
    cases ho : oracle 31 with
    | success b2 => rw [ho] at hns; simp [Attempt.isSuccess] at hns
    | http content =>
      dsimp only
      exact ⟨_, by rw [dif_pos (by omega : (31 : ℕ) > 30)]⟩
    | transport msg =>
      dsimp only
      exact ⟨_, by rw [dif_pos (by omega : (31 : ℕ) > 30)]⟩
  | succ k ih =>
    intro start lastResp hk
    have h30 : ¬ start > 30 := by omega
    have hns := hf start (by omega)
    rw [retryFrom.eq_def]
    cases ho : oracle start with
    | success b2 => rw [ho] at hns; simp [Attempt.isSuccess] at hns
    | http content =>
      dsimp only
      rw [dif_neg h30]
      exact ih (start + 1) (some content) (by omega)
    | transport msg =>
      dsimp only
      rw [dif_neg h30]
      exact ih (start + 1) lastResp (by omega)

theorem retryErrText_ne_empty (svc msg : String) : retryErrText svc msg ≠ "" := by
  intro h
  have hlen := congrArg String.length h
  simp only [retryErrText, String.length_append] at hlen
  have h14 : ("Error calling " : String).length = 14 := rfl
  have h0 : ("" : String).length = 0 := rfl
  omega

theorem retryFrom_failed_eq_errText {α : Type} (svc : String) (oracle : ℕ → Attempt α) :
    ∀ k n lastResp e, 32 - n ≤ k → retryFrom svc oracle n lastResp = .failed e →
      ∃ msg, e = retryErrText svc msg := by
  intro k
  induction k with
  | zero =>
    intro n lastResp e hk he
    rw [retryFrom.eq_def] at he
    cases ho : oracle n with
    | success b => rw [ho] at he; simp at he
    | http content =>
      rw [ho] at he
      dsimp only at he
      rw [dif_pos (by omega)] at he
      exact ⟨content, by injection he with h2; rw [h2]⟩
    | transport msg =>
      rw [ho] at he
      dsimp only at he
      rw [dif_pos (by omega)] at he
      exact ⟨lastResp.getD msg, by injection he with h2; rw [h2]⟩
  | succ k ih =>
    intro n lastResp e hk he
    rw [retryFrom.eq_def] at he
    cases ho : oracle n with
    | success b => rw [ho] at he; simp at he
    | http content =>
      rw [ho] at he
      dsimp only at he
      by_cases h30 : n > 30
      · rw [dif_pos h30] at he
        exact ⟨content, by injection he with h2; rw [h2]⟩
      · rw [dif_neg h30] at he
        exact ih (n + 1) (some content) e (by omega) he
    | transport msg =>
      rw [ho] at he
      dsimp only at he
      by_cases h30 : n > 30
      · rw [dif_pos h30] at he
        exact ⟨lastResp.getD msg, by injection he with h2; rw [h2]⟩
      · rw [dif_neg h30] at he
        exact ih (n + 1) lastResp e (by omega) he

theorem retryFrom_failed_ne_empty {α : Type} (svc : String) (oracle : ℕ → Attempt α)
    (n : ℕ) (lastResp : Option String) (e : String)
    (he : retryFrom svc oracle n lastResp = .failed e) : e ≠ "" := by
  rcases retryFrom_failed_eq_errText svc oracle (32 - n) n lastResp e (le_refl _) he with ⟨msg, hm⟩
  rw [hm]
  exact retryErrText_ne_empty svc msg

/-! ### Helper unfoldings of the gateway on a fresh submission -/

theorem evaluate_model_fresh_supported (env : AdmissionEnv) (now : ℕ)
    (req : EvaluateModelRequest) (lb : List Row)
    (hfp : pyInt req.hash = some (regenerate_hash req.repo_namespace req.repo_name req.chat_template_type req.competition_id : ℤ))
    (hfresh : get_json_result lb req.hash = none)
    (htmpl : (chat_template_mappings.map Prod.fst).contains req.chat_template_type = true) :
    evaluate_model env now req lb =
      (match env.repo_size with
       | .error e =>
         failAdmission (newQueuedRow req now :: lb) req.hash ("Error checking model repo size: " ++ e)
       | .ok none => failAdmission (newQueuedRow req now :: lb) req.hash repo_size_missing_note
       | .ok (some model_repo_size) =>
         if model_repo_size > MAX_REPO_SIZE ∨ model_repo_size < MIN_REPO_SIZE then
           failAdmission (newQueuedRow req now :: lb) req.hash (repo_size_bound_note model_repo_size)
         else
           match env.model_size with
           | none => failAdmission (newQueuedRow req now :: lb) req.hash model_size_missing_note
           | some model_size =>
             if model_size / 4 > MAX_MODEL_SIZE then
               failAdmission (newQueuedRow req now :: lb) req.hash (model_size_note model_size)
             else
               ⟨newQueuedRow req now :: lb, [req],
                 .ok (get_json_result (newQueuedRow req now :: lb) req.hash)⟩) := by
  have hne : ¬ ((regenerate_hash req.repo_namespace req.repo_name req.chat_template_type req.competition_id : ℤ) ≠ (regenerate_hash req.repo_namespace req.repo_name req.chat_template_type req.competition_id : ℤ)) := by
    simp
  unfold evaluate_model
  rw [hfp]
  dsimp only
  rw [if_neg hne, hfresh]
  dsimp only
  rw [htmpl]
  simp only [Bool.not_true, Bool.false_eq_true, if_false]

theorem evaluate_model_fresh_unsupported (env : AdmissionEnv) (now : ℕ)
    (req : EvaluateModelRequest) (lb : List Row)
    (hfp : pyInt req.hash = some (regenerate_hash req.repo_namespace req.repo_name req.chat_template_type req.competition_id : ℤ))
    (hfresh : get_json_result lb req.hash = none)
    (htmpl : (chat_template_mappings.map Prod.fst).contains req.chat_template_type = false) :
    evaluate_model env now req lb =
      failAdmission (newQueuedRow req now :: lb) req.hash
        ("Chat template type not supported: " ++ req.chat_template_type) := by
  have hne : ¬ ((regenerate_hash req.repo_namespace req.repo_name req.chat_template_type req.competition_id : ℤ) ≠ (regenerate_hash req.repo_namespace req.repo_name req.chat_template_type req.competition_id : ℤ)) := by
    simp
  unfold evaluate_model
  rw [hfp]
  dsimp only
  rw [if_neg hne, hfresh]
  dsimp only
  rw [htmpl]
  simp only [Bool.not_false, if_true]

theorem find?_cons_self (req : EvaluateModelRequest) (now : ℕ) (lb : List Row) :
    (newQueuedRow req now :: lb).find? (fun r => r.hash == req.hash) = some (newQueuedRow req now) := by
  simp [List.find?_cons, newQueuedRow]

theorem find?_set_msize (lb : List Row) (h : String) (v : ℚ) :
    (setRow lb h (fun r => { r with model_size_score := v })).find? (fun r => r.hash == h) =
      (lb.find? (fun r => r.hash == h)).map (fun r => { r with model_size_score := v }) :=
  find?_hash_setRow lb h _ (fun r => rfl)

theorem find?_set_qual (lb : List Row) (h : String) (v : ℚ) :
    (setRow lb h (fun r => { r with qualitative_score := v })).find? (fun r => r.hash == h) =
      (lb.find? (fun r => r.hash == h)).map (fun r => { r with qualitative_score := v }) :=
  find?_hash_setRow lb h _ (fun r => rfl)

theorem find?_set_latency (lb : List Row) (h : String) (v : ℚ) :
    (setRow lb h (fun r => { r with latency_score := v })).find? (fun r => r.hash == h) =
      (lb.find? (fun r => r.hash == h)).map (fun r => { r with latency_score := v }) :=
  find?_hash_setRow lb h _ (fun r => rfl)

theorem find?_set_vibe_notes (lb : List Row) (h : String) :
    (setRow lb h (fun r => { r with notes := "Now computing vibe score" })).find?
        (fun r => r.hash == h) =
      (lb.find? (fun r => r.hash == h)).map
        (fun r => { r with notes := "Now computing vibe score" }) :=
  find?_hash_setRow lb h _ (fun r => rfl)

/-! ### Claims -/

/-- Claim C2: a submission whose caller-supplied hash disagrees with the
fingerprint recomputed from
`(repo_namespace, repo_name, chat_template_type, competition_id)` fails with
a validation error before touching the store — the leaderboard and queue are
untouched (an unparseable hash likewise fails first, inside `int()` itself);
and the gateway preserves the invariant that every stored row's hash parses
to the recomputed fingerprint of its identity fields (the row schema stores
no competition_id column, so that component is existential). -/
theorem C2_fingerprint_validation (env : AdmissionEnv) (now : ℕ)
    (req : EvaluateModelRequest) (lb : List Row) :
    (pyInt req.hash = none →
      evaluate_model env now req lb =
        ⟨lb, [], .error "ValueError: invalid literal for int() with base 10"⟩) ∧
    (∀ n, pyInt req.hash = some n →
      n ≠ (regenerate_hash req.repo_namespace req.repo_name req.chat_template_type req.competition_id : ℤ) →
      evaluate_model env now req lb = ⟨lb, [], .error "Hash does not match the model details"⟩) ∧
    ((∀ r ∈ lb, ∃ comp, pyInt r.hash =
        some (regenerate_hash r.repo_namespace r.repo_name r.chat_template_type comp : ℤ)) →
      ∀ r ∈ (evaluate_model env now req lb).leaderboard,
        ∃ comp, pyInt r.hash =
          some (regenerate_hash r.repo_namespace r.repo_name r.chat_template_type comp : ℤ)) := by
  refine ⟨?_, ?_, ?_⟩
  · intro h0
    unfold evaluate_model
    rw [h0]
  · intro n hn hne
    unfold evaluate_model
    rw [hn]
    dsimp only
    rw [if_pos hne]
  · intro hinv r hr
    cases hpi : pyInt req.hash with
    | none =>
      have hlb : (evaluate_model env now req lb).leaderboard = lb := by
        unfold evaluate_model
        rw [hpi]
      rw [hlb] at hr
      exact hinv r hr
    | some n =>
      by_cases hfp : n = (regenerate_hash req.repo_namespace req.repo_name req.chat_template_type req.competition_id : ℤ)
      · subst hfp
        cases hfresh : get_json_result lb req.hash with
        | some p =>
          have hlb : (evaluate_model env now req lb).leaderboard = lb := by
            unfold evaluate_model
            rw [hpi]
            dsimp only
            rw [if_neg (by simp), hfresh]
          rw [hlb] at hr
          exact hinv r hr
        | none =>
          have hnew : ∃ comp, pyInt (newQueuedRow req now).hash =
              some (regenerate_hash (newQueuedRow req now).repo_namespace
                (newQueuedRow req now).repo_name
                (newQueuedRow req now).chat_template_type comp : ℤ) :=
            ⟨req.competition_id, by simpa [newQueuedRow] using hpi⟩
          rcases evaluate_model_shape env now req lb hpi hfresh with hsh | ⟨note, hsh⟩
          · rw [hsh] at hr
            rcases List.mem_cons.mp hr with h1 | h1
            · rw [h1]; exact hnew
            · exact hinv r h1
          · rw [hsh] at hr
            unfold update_leaderboard_status setRow at hr
            rcases List.mem_map.mp hr with ⟨r0, hr0, hmap⟩
            have hfields : ∃ comp, pyInt r0.hash =
                some (regenerate_hash r0.repo_namespace r0.repo_name r0.chat_template_type comp : ℤ) := by
              rcases List.mem_cons.mp hr0 with h1 | h1
              · rw [h1]; exact hnew
              · exact hinv r0 h1
            rcases hfields with ⟨comp, hcomp⟩
            by_cases hb : (r0.hash == req.hash) = true
            · rw [if_pos hb] at hmap
              rw [← hmap]
              exact ⟨comp, hcomp⟩
            · rw [if_neg hb] at hmap
              rw [← hmap]
              exact ⟨comp, hcomp⟩
      · have hlb : (evaluate_model env now req lb).leaderboard = lb := by
          unfold evaluate_model
          rw [hpi]
          dsimp only
          rw [if_pos hfp]
        rw [hlb] at hr
        exact hinv r hr

/-- Witness for C2 at concrete inputs: a parseable-but-mismatching hash and
an unparseable hash are both rejected with the store untouched, and after a
fresh valid submission the inserted row's hash parses to the fingerprint of
its fields. -/
theorem C2_fingerprint_validation_witness :
    evaluate_model envOkAdmission 0 reqBadHash [] =
      ⟨[], [], .error "Hash does not match the model details"⟩ ∧
    evaluate_model envOkAdmission 0 reqUnparseable [] =
      ⟨[], [], .error "ValueError: invalid literal for int() with base 10"⟩ ∧
    (∃ comp, pyInt (newQueuedRow reqW 0).hash =
      some (regenerate_hash (newQueuedRow reqW 0).repo_namespace (newQueuedRow reqW 0).repo_name
        (newQueuedRow reqW 0).chat_template_type comp : ℤ)) :=
  ⟨(C2_fingerprint_validation envOkAdmission 0 reqBadHash []).2.1 0 (by decide) (by decide),
   (C2_fingerprint_validation envOkAdmission 0 reqUnparseable []).1 (by decide),
   (C2_fingerprint_validation envOkAdmission 0 reqW []).2.2 (by simp) (newQueuedRow reqW 0)
     (by decide)⟩

/-- Claim C4: after the controlled-shutdown pruning, the persisted snapshot
contains no QUEUED and no RUNNING row, only rows of the pre-shutdown store,
and every COMPLETED or FAILED row of the pre-shutdown store is present
unchanged in all fields (it appears as the very same row). -/
theorem C4_shutdown_pruning (lb : List Row) :
    (∀ r ∈ shutdown_prune lb, r.status ≠ Status.QUEUED ∧ r.status ≠ Status.RUNNING) ∧
    (∀ r ∈ shutdown_prune lb, r ∈ lb) ∧
    (∀ r ∈ lb, r.status = Status.COMPLETED ∨ r.status = Status.FAILED →
      r ∈ shutdown_prune lb) := by
  refine ⟨?_, ?_, ?_⟩
  · intro r hr
    simp only [shutdown_prune, List.mem_filter] at hr
    rcases hr with ⟨⟨hmem, hq⟩, hrun⟩
    exact ⟨by simpa using hq, by simpa using hrun⟩
  · intro r hr
    simp only [shutdown_prune, List.mem_filter] at hr
    exact hr.1.1
  · intro r hr hterm
    simp only [shutdown_prune, List.mem_filter]
    rcases hterm with h | h <;> simp [hr, h]

/-- Witness for C4 at a concrete leaderboard holding one row of each status:
the COMPLETED row survives the shutdown pruning unchanged. -/
theorem C4_shutdown_pruning_witness : rowCompletedW ∈ shutdown_prune lbShutdownW :=
  (C4_shutdown_pruning lbShutdownW).2.2 rowCompletedW (by simp [lbShutdownW]) (Or.inl rfl)

/-- Claim C8 counterexample: for a fresh submission with the unsupported
template "nonexistent" and a correct fingerprint, the call does NOT fail
before a row is created — afterwards a row for that hash exists (status
FAILED) and the response is the row's normal payload, not an error. -/
theorem C8_template_counterexample :
    (get_json_result (evaluate_model envOkAdmission 0 reqBadTemplate []).leaderboard
      reqBadTemplate.hash).isSome = true ∧
    rowStatus (evaluate_model envOkAdmission 0 reqBadTemplate []).leaderboard
      reqBadTemplate.hash = some .FAILED ∧
    (evaluate_model envOkAdmission 0 reqBadTemplate []).response =
      .ok (get_json_result (evaluate_model envOkAdmission 0 reqBadTemplate []).leaderboard
        reqBadTemplate.hash) :=
  ⟨by decide, by decide, rfl⟩

/-- Claim C8 as amended: the gateway inserts the QUEUED row before the
template check; an unsupported template therefore leaves a FAILED row (with
the descriptive note) for the submission's hash, nothing is enqueued, and
the caller receives that row's payload as a normal response rather than a
synchronous validation error. -/
theorem C8_template_amended (env : AdmissionEnv) (now : ℕ)
    (req : EvaluateModelRequest) (lb : List Row)
    (hfp : pyInt req.hash = some (regenerate_hash req.repo_namespace req.repo_name req.chat_template_type req.competition_id : ℤ))
    (hfresh : get_json_result lb req.hash = none)
    (htmpl : (chat_template_mappings.map Prod.fst).contains req.chat_template_type = false) :
    (evaluate_model env now req lb).queued = [] ∧
    rowStatus (evaluate_model env now req lb).leaderboard req.hash = some .FAILED ∧
    rowNotes (evaluate_model env now req lb).leaderboard req.hash =
      some ("Chat template type not supported: " ++ req.chat_template_type) ∧
    (get_json_result (evaluate_model env now req lb).leaderboard req.hash).isSome = true ∧
    (evaluate_model env now req lb).response =
      .ok (get_json_result (evaluate_model env now req lb).leaderboard req.hash) := by
  rw [evaluate_model_fresh_unsupported env now req lb hfp hfresh htmpl]
  unfold failAdmission
  dsimp only
  have hfind := find?_cons_self req now lb
  refine ⟨rfl, rowStatus_update _ _ _ _ _ hfind, rowNotes_update_of_empty _ _ _ _ _ hfind rfl,
    ?_, rfl⟩
  unfold get_json_result
  rw [find?_update, hfind]
  rfl

/-- Witness for the amended C8 at a concrete fresh submission. -/
theorem C8_template_amended_witness :
    rowNotes (evaluate_model envOkAdmission 0 reqBadTemplate []).leaderboard
      reqBadTemplate.hash = some "Chat template type not supported: nonexistent" :=
  (C8_template_amended envOkAdmission 0 reqBadTemplate [] (by decide) rfl (by decide)).2.2.1

/-- Claim C9 counterexample: an on-disk column set that strictly extends the
fixed 12-column schema is accepted by the startup check, so an extra column
is NOT fatal, contradicting "rejects iff the column set does not exactly
match". -/
theorem C9_loader_counterexample :
    loader_accepts (leaderboard_columns ++ ["extra_column"]) = true ∧
    leaderboard_columns.contains "extra_column" = false ∧
    (leaderboard_columns ++ ["extra_column"]).length = leaderboard_columns.length + 1 :=
  ⟨by decide, by decide, by decide⟩

/-- Claim C9 as amended: the startup check accepts the on-disk column set
exactly when every required schema column is present; a missing required
column is fatal, an extra column is tolerated. -/
theorem C9_loader_amended (onDisk : List String) :
    loader_accepts onDisk = true ↔ ∀ c ∈ leaderboard_columns, c ∈ onDisk := by
  simp only [loader_accepts, List.all_eq_true, List.contains_iff_exists_mem_beq, beq_iff_eq]
  constructor
  · intro hall c hc
    rcases hall c hc with ⟨x, hx, hxc⟩
    rw [hxc]
    exact hx
  · intro hall c hc
    exact ⟨c, hall c hc, rfl⟩

/-- Witness for the amended C9: the exact schema itself is accepted. -/
theorem C9_loader_amended_witness : loader_accepts leaderboard_columns = true :=
  (C9_loader_amended leaderboard_columns).mpr (fun _ hc => hc)

/-- Claim C5, the admission gate on a fresh, supported-template, correctly
fingerprinted submission: when the repo-size lookup raises or returns
nothing, or the size is outside `[MIN_REPO_SIZE, MAX_REPO_SIZE]`, or the
declared model size is missing, or `model_size / 4 > MAX_MODEL_SIZE`, the
row is FAILED and nothing is enqueued; the two bound violations write their
descriptive bound note; a submission passing all admission checks is
enqueued (and only such a submission) and is returned in its QUEUED state
with the sentinel scores. -/
theorem C5_admission_gate (env : AdmissionEnv) (now : ℕ)
    (req : EvaluateModelRequest) (lb : List Row)
    (hfp : pyInt req.hash = some (regenerate_hash req.repo_namespace req.repo_name req.chat_template_type req.competition_id : ℤ))
    (hfresh : get_json_result lb req.hash = none)
    (htmpl : (chat_template_mappings.map Prod.fst).contains req.chat_template_type = true) :
    (admission_passes env = false →
      (evaluate_model env now req lb).queued = [] ∧
      rowStatus (evaluate_model env now req lb).leaderboard req.hash = some .FAILED) ∧
    (∀ sz, env.repo_size = .ok (some sz) → (sz > MAX_REPO_SIZE ∨ sz < MIN_REPO_SIZE) →
      rowNotes (evaluate_model env now req lb).leaderboard req.hash =
        some (repo_size_bound_note sz)) ∧
    (∀ sz ms, env.repo_size = .ok (some sz) → ¬(sz > MAX_REPO_SIZE ∨ sz < MIN_REPO_SIZE) →
      env.model_size = some ms → ms / 4 > MAX_MODEL_SIZE →
      rowNotes (evaluate_model env now req lb).leaderboard req.hash =
        some (model_size_note ms)) ∧
    (admission_passes env = true →
      (evaluate_model env now req lb).queued = [req] ∧
      (evaluate_model env now req lb).response = .ok (some ⟨⟨-1, -1, -1, -1, -1⟩, .QUEUED⟩) ∧
      rowStatus (evaluate_model env now req lb).leaderboard req.hash = some .QUEUED) := by
  have hunf := evaluate_model_fresh_supported env now req lb hfp hfresh htmpl
  have hfind := find?_cons_self req now lb
  obtain ⟨rs, msz⟩ := env
  refine ⟨?_, ?_, ?_, ?_⟩
  · intro hfail
    cases rs with
    | error e =>
      rw [hunf]
      unfold failAdmission
      exact ⟨rfl, rowStatus_update _ _ _ _ _ hfind⟩
    | ok o =>
      cases o with
      | none =>
        rw [hunf]
        unfold failAdmission
        exact ⟨rfl, rowStatus_update _ _ _ _ _ hfind⟩
      | some sz =>
        rw [hunf]
        dsimp only
        by_cases hsz : sz > MAX_REPO_SIZE ∨ sz < MIN_REPO_SIZE
        · rw [if_pos hsz]
          unfold failAdmission
          exact ⟨rfl, rowStatus_update _ _ _ _ _ hfind⟩
        · rw [if_neg hsz]
          cases msz with
          | none =>
            unfold failAdmission
            exact ⟨rfl, rowStatus_update _ _ _ _ _ hfind⟩
          | some ms =>
            dsimp only
            by_cases hms : ms / 4 > MAX_MODEL_SIZE
            · rw [if_pos hms]
              unfold failAdmission
              exact ⟨rfl, rowStatus_update _ _ _ _ _ hfind⟩
            · exfalso
              simp only [admission_passes, Bool.and_eq_false_iff, decide_eq_false_iff_not] at hfail
              rcases hfail with (h1 | h1) | h1
              · exact hsz (Or.inl (by omega))
              · exact hsz (Or.inr (by omega))
              · exact hms (by omega)
  · intro sz hrs hsz
    cases hrs
    rw [hunf]
    dsimp only
    rw [if_pos hsz]
    unfold failAdmission
    exact rowNotes_update_of_empty _ _ _ _ _ hfind rfl
  · intro sz ms hrs hsz hms hbig
    cases hrs
    rw [hunf]
    dsimp only
    rw [if_neg hsz]
    cases hms
    dsimp only
    rw [if_pos hbig]
    unfold failAdmission
    exact rowNotes_update_of_empty _ _ _ _ _ hfind rfl
  · intro hpass
    cases rs with
    | error e => simp [admission_passes] at hpass
    | ok o =>
      cases o with
      | none => simp [admission_passes] at hpass
      | some sz =>
        cases msz with
        | none => simp [admission_passes] at hpass
        | some ms =>
          simp only [admission_passes, Bool.and_eq_true, decide_eq_true_eq] at hpass
          rw [hunf]
          dsimp only
          rw [if_neg (by omega), if_neg (by omega)]
          refine ⟨rfl, ?_, ?_⟩
          · unfold get_json_result
            rw [hfind]
            rfl
          · unfold rowStatus
            rw [hfind]
            rfl

/-- Witness for C5 at the spec's concrete example (repo size 5 MB, below
the 10 MB minimum: FAILED with the bound note, nothing enqueued) and at an
admissible environment (enqueued and returned QUEUED). -/
theorem C5_admission_gate_witness :
    ((evaluate_model envSmallRepo 0 reqW []).queued = [] ∧
      rowStatus (evaluate_model envSmallRepo 0 reqW []).leaderboard reqW.hash = some .FAILED) ∧
    rowNotes (evaluate_model envSmallRepo 0 reqW []).leaderboard reqW.hash =
      some (repo_size_bound_note (5 * 1024 * 1024)) ∧
    ((evaluate_model envOkAdmission 0 reqW []).queued = [reqW] ∧
      (evaluate_model envOkAdmission 0 reqW []).response =
        .ok (some ⟨⟨-1, -1, -1, -1, -1⟩, .QUEUED⟩) ∧
      rowStatus (evaluate_model envOkAdmission 0 reqW []).leaderboard reqW.hash =
        some .QUEUED) :=
  ⟨(C5_admission_gate envSmallRepo 0 reqW [] (by decide) rfl (by decide)).1 (by decide),
   (C5_admission_gate envSmallRepo 0 reqW [] (by decide) rfl (by decide)).2.1 (5 * 1024 * 1024)
     rfl (by decide),
   (C5_admission_gate envOkAdmission 0 reqW [] (by decide) rfl (by decide)).2.2.2 (by decide)⟩

/-- Claim C1 counterexample: the fingerprint check compares `int(hash)`
(line 309) but dedup and storage use the raw hash string (lines 315, 320,
288).  Two calls carrying the identical
`(repo_namespace, repo_name, chat_template_type, competition_id)` tuple,
each with a matching fingerprint (both hash strings parse to the recomputed
fingerprint), but written differently ("N" vs "0N"), leave TWO leaderboard
rows and enqueue TWO jobs: the second call bypasses dedup instead of
returning the existing row's payload. -/
theorem C1_idempotent_dedup_counterexample :
    pyInt reqWPad.hash = pyInt reqW.hash ∧
    pyInt reqW.hash = some (regenerate_hash "acme" "model" "vicuna" "d1" : ℤ) ∧
    (reqWPad.hash == reqW.hash) = false ∧
    (evaluate_model envOkAdmission 0 reqW []).leaderboard.length = 1 ∧
    (evaluate_model envOkAdmission 0 reqW []).queued = [reqW] ∧
    (evaluate_model envOkAdmission 1 reqWPad
      (evaluate_model envOkAdmission 0 reqW []).leaderboard).leaderboard.length = 2 ∧
    (evaluate_model envOkAdmission 1 reqWPad
      (evaluate_model envOkAdmission 0 reqW []).leaderboard).queued = [reqWPad] :=
  ⟨by decide, by decide, by decide, by decide, by decide, by decide, by decide⟩

/-- Claim C1 as amended: dedup is keyed on the raw hash string, not the
parsed fingerprint.  For a fresh, correctly fingerprinted submission, the
first `evaluate_model` call leaves exactly one leaderboard row with that
hash; a second call carrying the identical
`(repo_namespace, repo_name, chat_template_type, competition_id)` tuple and
the identically-written hash string finds the row, changes nothing in the
store, enqueues nothing, and returns the existing row's payload unchanged.
(Int-equal but textually different hash strings bypass dedup, per the
counterexample.) -/
theorem C1_idempotent_dedup (env1 env2 : AdmissionEnv) (now1 now2 : ℕ)
    (req req2 : EvaluateModelRequest) (lb : List Row)
    (hfp : pyInt req.hash = some (regenerate_hash req.repo_namespace req.repo_name req.chat_template_type req.competition_id : ℤ))
    (hfresh : get_json_result lb req.hash = none)
    (hsame1 : req2.repo_namespace = req.repo_namespace)
    (hsame2 : req2.repo_name = req.repo_name)
    (hsame3 : req2.chat_template_type = req.chat_template_type)
    (hsame4 : req2.competition_id = req.competition_id)
    (hsame5 : req2.hash = req.hash) :
    hashCount (evaluate_model env1 now1 req lb).leaderboard req.hash = 1 ∧
    (get_json_result (evaluate_model env1 now1 req lb).leaderboard req.hash).isSome = true ∧
    evaluate_model env2 now2 req2 (evaluate_model env1 now1 req lb).leaderboard =
      ⟨(evaluate_model env1 now1 req lb).leaderboard, [],
        .ok (get_json_result (evaluate_model env1 now1 req lb).leaderboard req.hash)⟩ := by
  have hfp2 : pyInt req2.hash = some (regenerate_hash req2.repo_namespace req2.repo_name req2.chat_template_type req2.competition_id : ℤ) := by
    rw [hsame5, hsame1, hsame2, hsame3, hsame4]
    exact hfp
  have hfind0 : lb.find? (fun r => r.hash == req.hash) = none :=
    (get_json_result_eq_none_iff lb req.hash).mp hfresh
  have hcount0 : hashCount lb req.hash = 0 := hashCount_eq_zero_of_find?_none lb req.hash hfind0
  have hfind1 := find?_cons_self req now1 lb
  have hcons : hashCount (newQueuedRow req now1 :: lb) req.hash = 1 := by
    have hb : ((newQueuedRow req now1).hash == req.hash) = true := by simp [newQueuedRow]
    simp only [hashCount, List.filter_cons, hb, if_true, List.length_cons] at *
    omega
  have hfind2 : ∃ r1, (evaluate_model env1 now1 req lb).leaderboard.find?
      (fun r => r.hash == req.hash) = some r1 := by
    rcases evaluate_model_shape env1 now1 req lb hfp hfresh with hsh | ⟨note, hsh⟩
    · rw [hsh, hfind1]
      exact ⟨_, rfl⟩
    · rw [hsh, find?_update, hfind1]
      exact ⟨_, rfl⟩
  rcases hfind2 with ⟨r1, hr1⟩
  refine ⟨?_, ?_, ?_⟩
  · rcases evaluate_model_shape env1 now1 req lb hfp hfresh with hsh | ⟨note, hsh⟩
    · rw [hsh]
      exact hcons
    · rw [hsh, hashCount_update]
      exact hcons
  · unfold get_json_result
    rw [hr1]
    rfl
  · have hne : ¬ ((regenerate_hash req2.repo_namespace req2.repo_name req2.chat_template_type req2.competition_id : ℤ) ≠ (regenerate_hash req2.repo_namespace req2.repo_name req2.chat_template_type req2.competition_id : ℤ)) := by
      simp
    generalize hg : (evaluate_model env1 now1 req lb).leaderboard = lb2 at hr1 ⊢
    unfold evaluate_model get_json_result
    rw [hfp2]
    dsimp only
    rw [if_neg hne, hsame5, hr1]
    rfl

/-- Witness for C1: the concrete fresh request `reqW` submitted twice. -/
theorem C1_idempotent_dedup_witness :
    hashCount (evaluate_model envOkAdmission 0 reqW []).leaderboard reqW.hash = 1 ∧
    evaluate_model envOkAdmission 1 reqW (evaluate_model envOkAdmission 0 reqW []).leaderboard =
      ⟨(evaluate_model envOkAdmission 0 reqW []).leaderboard, [],
        .ok (get_json_result (evaluate_model envOkAdmission 0 reqW []).leaderboard reqW.hash)⟩ :=
  ⟨(C1_idempotent_dedup envOkAdmission envOkAdmission 0 1 reqW reqW [] (by decide) rfl rfl rfl
      rfl rfl rfl).1,
   (C1_idempotent_dedup envOkAdmission envOkAdmission 0 1 reqW reqW [] (by decide) rfl rfl rfl
      rfl rfl rfl).2.2⟩

/-- Claim C6: whenever the worker returns a score payload (the job reached
COMPLETED), its total_score is the fixed weighted sum
`0.06·model_size + 0.82·qualitative + 0.06·latency + 0.06·vibe`, and at the
spec's concrete scores (1.0, 0.5, 0.8, 0.9) the formula yields 0.572. -/
theorem C6_weighted_total (env : WorkerEnv) (req : EvaluateModelRequest) (lb : List Row) :
    (∀ payload, (evaluate_model_logic env req lb).response = .ok payload →
      payload.total_score = 0.06 * payload.model_size_score + 0.82 * payload.qualitative_score
        + 0.06 * payload.latency_score + 0.06 * payload.vibe_score) ∧
    total_score_formula 1 0.5 0.8 0.9 = 0.572 := by
  constructor
  · intro payload hp
    unfold evaluate_model_logic at hp
    split at hp
    · exact absurd hp (by simp)
    · split at hp
      · exact absurd hp (by simp)
      · split at hp
        · exact absurd hp (by simp)
        · split at hp
          · exact absurd hp (by simp)
          · split at hp
            · exact absurd hp (by simp)
            · split at hp
              · exact absurd hp (by simp)
              · split at hp
                · exact absurd hp (by simp)
                · split at hp
                  · exact absurd hp (by simp)
                  · simp only [] at hp
                    injection hp with hp2
                    subst hp2
                    show total_score_formula _ _ _ _ = _
                    unfold total_score_formula MODEL_SIZE_SCORE_WEIGHT QUALITATIVE_SCORE_WEIGHT
                      LATENCY_SCORE_WEIGHT VIBE_SCORE_WEIGHT
                    ring
  · unfold total_score_formula MODEL_SIZE_SCORE_WEIGHT QUALITATIVE_SCORE_WEIGHT
      LATENCY_SCORE_WEIGHT VIBE_SCORE_WEIGHT
    norm_num

/-- Witness for C6: a concrete happy-path run with scores
(1.0, 0.5, 0.8, 0.9) reaches COMPLETED and its payload satisfies the
weighted-sum equation. -/
theorem C6_weighted_total_witness :
    ((⟨1, 1/2, 4/5, 9/10, total_score_formula 1 (1/2) (4/5) (9/10)⟩ : ScorePayload).total_score =
      0.06 * (⟨1, 1/2, 4/5, 9/10, total_score_formula 1 (1/2) (4/5) (9/10)⟩ : ScorePayload).model_size_score
      + 0.82 * (⟨1, 1/2, 4/5, 9/10, total_score_formula 1 (1/2) (4/5) (9/10)⟩ : ScorePayload).qualitative_score
      + 0.06 * (⟨1, 1/2, 4/5, 9/10, total_score_formula 1 (1/2) (4/5) (9/10)⟩ : ScorePayload).latency_score
      + 0.06 * (⟨1, 1/2, 4/5, 9/10, total_score_formula 1 (1/2) (4/5) (9/10)⟩ : ScorePayload).vibe_score) := by
  have hresp : (evaluate_model_logic envHappy reqW [rowW]).response =
      .ok ⟨1, 1/2, 4/5, 9/10, total_score_formula 1 (1/2) (4/5) (9/10)⟩ := by
    simp [evaluate_model_logic, retryFrom, envHappy, oracleAOk, oracleBOk, reqW, rowW,
      newQueuedRow, update_leaderboard_status, setRow]
  exact (C6_weighted_total envHappy reqW [rowW]).1 _ hresp

/-- Claim C3 counterexample: the 30-second deadline is only enforced on a
*failed* attempt.  With the eval_score service failing at attempts 0..30 and
succeeding at attempt 31 — i.e. 31 s (> 30 s) after the first attempt — the
retry loop still succeeds and the job still reaches COMPLETED, so "once more
than 30 seconds have elapsed since the first attempt, the row is set to
FAILED ... and processing of this job stops" is false on the code. -/
theorem C3_retry_deadline_counterexample :
    (lateSuccessOracleA 30).isSuccess = false ∧
    retryFrom "eval_score" lateSuccessOracleA 0 none =
      .ok ⟨some (1/2), some (4/5), some 1⟩ 31 ∧
    31 > 30 ∧
    rowStatus (evaluate_model_logic envLateSuccess reqW [rowW]).leaderboard reqW.hash =
      some .COMPLETED ∧
    (evaluate_model_logic envLateSuccess reqW [rowW]).response =
      .ok ⟨1, 1/2, 4/5, 9/10, total_score_formula 1 (1/2) (4/5) (9/10)⟩ := by
  refine ⟨by simp [lateSuccessOracleA, Attempt.isSuccess], ?_, by omega, ?_, ?_⟩
  · simp [retryFrom, lateSuccessOracleA]
  · simp [evaluate_model_logic, retryFrom, envLateSuccess, lateSuccessOracleA, oracleBOk, reqW,
      rowW, newQueuedRow, update_leaderboard_status, setRow, rowStatus, List.find?]
  · simp [evaluate_model_logic, retryFrom, envLateSuccess, lateSuccessOracleA, oracleBOk, reqW,
      rowW, newQueuedRow, update_leaderboard_status, setRow]

/-- Claim C3 as amended: the deadline check runs only inside the failure
handler; the same protocol drives both phases.  (1) When the retry loop for
the eval_score phase (lines 163-175) fails — which happens exactly on a
failed attempt past 30 s — the row is set FAILED with the loop's last error
text, the best-effort restart signal is sent to that service, and
processing of the job stops with that error.  (2) The same for the
vibe_score phase (lines 212-223), once the eval_score phase succeeded with
parseable scores: FAILED with the vibe loop's last error text, restart
signals to both services (eval_score's was already sent after its success),
and the job stops.  (3) After a successful phase the restart signal is
still sent.  (4) A first success at attempt n ≤ 31 — in particular any
success within 30 s — makes the loop succeed at that attempt.  (5) If every
attempt through the deadline fails, the loop fails. -/
theorem C3_retry_amended (env : WorkerEnv) (req : EvaluateModelRequest) (lb : List Row)
    (hrow : lb.any (fun r => r.hash == req.hash) = true) :
    (∀ errText, retryFrom "eval_score" env.oracleA 0 none = .failed errText →
      rowStatus (evaluate_model_logic env req lb).leaderboard req.hash = some .FAILED ∧
      rowNotes (evaluate_model_logic env req lb).leaderboard req.hash = some errText ∧
      (evaluate_model_logic env req lb).restart_signals = ["eval_score"] ∧
      (evaluate_model_logic env req lb).response = .error errText) ∧
    (∀ bodyA nA ms ev lat errText,
      retryFrom "eval_score" env.oracleA 0 none = .ok bodyA nA →
      bodyA.model_size_score = some ms → bodyA.eval_score = some ev →
      bodyA.latency_score = some lat →
      retryFrom "vibe_score" env.oracleB 0 none = .failed errText →
      rowStatus (evaluate_model_logic env req lb).leaderboard req.hash = some .FAILED ∧
      rowNotes (evaluate_model_logic env req lb).leaderboard req.hash = some errText ∧
      (evaluate_model_logic env req lb).restart_signals = ["eval_score", "vibe_score"] ∧
      (evaluate_model_logic env req lb).response = .error errText) ∧
    (∀ body n, retryFrom "eval_score" env.oracleA 0 none = .ok body n →
      "eval_score" ∈ (evaluate_model_logic env req lb).restart_signals) ∧
    (∀ (oracle : ℕ → Attempt ABody) (body : ABody) (n : ℕ), n ≤ 31 →
      oracle n = .success body → (∀ m, m < n → (oracle m).isSuccess = false) →
      retryFrom "eval_score" oracle 0 none = .ok body n) ∧
    (∀ (oracle : ℕ → Attempt BBody), (∀ m, m ≤ 31 → (oracle m).isSuccess = false) →
      ∃ e, retryFrom "vibe_score" oracle 0 none = .failed e) := by
  obtain ⟨r0, hr0⟩ := exists_find?_of_any lb req.hash hrow
  refine ⟨?_, ?_, ?_, ?_, ?_⟩
  · intro errText hfail
    have hnt := retryFrom_failed_ne_empty "eval_score" env.oracleA 0 none errText hfail
    unfold evaluate_model_logic
    simp only [hrow, Bool.not_true, Bool.false_eq_true, if_false, hfail]
    refine ⟨?_, ?_, ?_, ?_⟩
    · exact rowStatus_update _ _ _ _ _ (by rw [find?_update, hr0]; rfl)
    · exact rowNotes_update _ _ _ _ _ (by rw [find?_update, hr0]; rfl) hnt
    · trivial
    · trivial
  · intro bodyA nA ms ev lat errText hA hms hev hlat hBfail
    have hnt := retryFrom_failed_ne_empty "vibe_score" env.oracleB 0 none errText hBfail
    unfold evaluate_model_logic
    simp only [hrow, Bool.not_true, Bool.false_eq_true, if_false, hA, hms, hev, hlat, hBfail]
    refine ⟨?_, ?_, ?_, ?_⟩
    · exact rowStatus_update _ _ _ _ _ (by
        rw [find?_set_vibe_notes, find?_set_latency, find?_set_qual, find?_set_msize,
          find?_update, hr0]
        rfl)
    · exact rowNotes_update _ _ _ _ _ (by
        rw [find?_set_vibe_notes, find?_set_latency, find?_set_qual, find?_set_msize,
          find?_update, hr0]
        rfl) hnt
    · trivial
    · trivial
  · intro body n hok
    unfold evaluate_model_logic
    simp only [hrow, Bool.not_true, Bool.false_eq_true, if_false, hok]
    repeat' split
    all_goals simp
  · intro oracle body n hn hs hf
    exact retryFrom_ok_of_first_success "eval_score" oracle body n hn hs hf
  · intro oracle hf
    exact retryFrom_failed_of_no_success "vibe_score" oracle hf

/-- Witness for the amended C3: an eval_score service that never responds
drives the concrete job to FAILED with the error text and a restart signal;
a vibe_score service that never responds does the same after a successful
eval_score phase, with restart signals to both services; an immediately
succeeding service exits the loop at attempt 0. -/
theorem C3_retry_amended_witness :
    (rowStatus (evaluate_model_logic envNeverA reqW [rowW]).leaderboard reqW.hash =
        some .FAILED ∧
      rowNotes (evaluate_model_logic envNeverA reqW [rowW]).leaderboard reqW.hash =
        some (retryErrText "eval_score" "Connection refused") ∧
      (evaluate_model_logic envNeverA reqW [rowW]).restart_signals = ["eval_score"] ∧
      (evaluate_model_logic envNeverA reqW [rowW]).response =
        .error (retryErrText "eval_score" "Connection refused")) ∧
    (rowStatus (evaluate_model_logic envNeverB reqW [rowW]).leaderboard reqW.hash =
        some .FAILED ∧
      rowNotes (evaluate_model_logic envNeverB reqW [rowW]).leaderboard reqW.hash =
        some (retryErrText "vibe_score" "Connection refused") ∧
      (evaluate_model_logic envNeverB reqW [rowW]).restart_signals =
        ["eval_score", "vibe_score"] ∧
      (evaluate_model_logic envNeverB reqW [rowW]).response =
        .error (retryErrText "vibe_score" "Connection refused")) ∧
    retryFrom "eval_score" oracleAOk 0 none = .ok ⟨some (1/2), some (4/5), some 1⟩ 0 := by
  refine ⟨?_, ?_, ?_⟩
  · exact (C3_retry_amended envNeverA reqW [rowW] (by simp [rowW, newQueuedRow])).1
      (retryErrText "eval_score" "Connection refused")
      (by simp [retryFrom, envNeverA, retryErrText])
  · exact (C3_retry_amended envNeverB reqW [rowW] (by simp [rowW, newQueuedRow])).2.1
      ⟨some (1/2), some (4/5), some 1⟩ 0 1 (1/2) (4/5)
      (retryErrText "vibe_score" "Connection refused")
      (by simp [retryFrom, envNeverB, oracleAOk]) rfl rfl rfl
      (by simp [retryFrom, envNeverB, retryErrText])
  · exact (C3_retry_amended envNeverA reqW [rowW] (by simp [rowW, newQueuedRow])).2.2.2.1
      oracleAOk ⟨some (1/2), some (4/5), some 1⟩ 0 (by omega) rfl
      (fun m hm => absurd hm (Nat.not_lt_zero m))

/-- Claim C10 counterexample: with the vibe_score JSON field null, the
defensive check raises, but the row does NOT end in status FAILED — it stays
RUNNING (with the sentinel total_score untouched); the exception is merely
caught by the worker loop. -/
theorem C10_defensive_check_counterexample :
    (evaluate_model_logic envVibeNone reqW [rowW]).response =
      .error "Error calculating scores, one or more scores are None" ∧
    rowStatus (evaluate_model_logic envVibeNone reqW [rowW]).leaderboard reqW.hash =
      some .RUNNING ∧
    (rowStatus (evaluate_model_logic envVibeNone reqW [rowW]).leaderboard reqW.hash ==
      some Status.FAILED) = false ∧
    rowTotal (evaluate_model_logic envVibeNone reqW [rowW]).leaderboard reqW.hash =
      some (-1) := by
  have hstatus : rowStatus (evaluate_model_logic envVibeNone reqW [rowW]).leaderboard reqW.hash =
      some .RUNNING := by
    simp [evaluate_model_logic, retryFrom, envVibeNone, oracleAOk, reqW, rowW, newQueuedRow,
      update_leaderboard_status, setRow, rowStatus, List.find?]
  refine ⟨?_, hstatus, by rw [hstatus]; rfl, ?_⟩
  · simp [evaluate_model_logic, retryFrom, envVibeNone, oracleAOk, reqW, rowW, newQueuedRow,
      update_leaderboard_status, setRow]
  · simp [evaluate_model_logic, retryFrom, envVibeNone, oracleAOk, reqW, rowW, newQueuedRow,
      update_leaderboard_status, setRow, rowTotal, List.find?]

/-- Claim C10 as amended: if the vibe score is still unset after both
phases, the job aborts with the defensive error (no COMPLETED update and no
total_score is written), but the row is left in status RUNNING with the
progress note rather than being set to FAILED; the exception is caught by
the worker loop.  (The three eval_score-phase fields cannot reach this check
unset: `float(None)` already raises during the partial-score write.) -/
theorem C10_defensive_check_amended (env : WorkerEnv) (req : EvaluateModelRequest)
    (lb : List Row) (bodyA : ABody) (nA : ℕ) (ms ev lat : ℚ) (bodyB : BBody) (nB : ℕ)
    (hrow : lb.any (fun r => r.hash == req.hash) = true)
    (hA : retryFrom "eval_score" env.oracleA 0 none = .ok bodyA nA)
    (hms : bodyA.model_size_score = some ms)
    (hev : bodyA.eval_score = some ev)
    (hlat : bodyA.latency_score = some lat)
    (hB : retryFrom "vibe_score" env.oracleB 0 none = .ok bodyB nB)
    (hv : bodyB.vibe_score = none) :
    (evaluate_model_logic env req lb).response =
      .error "Error calculating scores, one or more scores are None" ∧
    rowStatus (evaluate_model_logic env req lb).leaderboard req.hash = some .RUNNING ∧
    rowNotes (evaluate_model_logic env req lb).leaderboard req.hash =
      some "Now computing vibe score" ∧
    (evaluate_model_logic env req lb).restart_signals = ["eval_score", "vibe_score"] := by
  obtain ⟨r0, hr0⟩ := exists_find?_of_any lb req.hash hrow
  unfold evaluate_model_logic
  simp only [hrow, Bool.not_true, Bool.false_eq_true, if_false, hA, hms, hev, hlat, hB, hv]
  refine ⟨by trivial, ?_, ?_, by trivial⟩
  · unfold rowStatus
    rw [find?_set_vibe_notes, find?_set_latency, find?_set_qual, find?_set_msize,
      find?_update, hr0]
    rfl
  · unfold rowNotes
    rw [find?_set_vibe_notes, find?_set_latency, find?_set_qual, find?_set_msize,
      find?_update, hr0]
    rfl

/-- Witness for the amended C10 at the concrete null-vibe environment. -/
theorem C10_defensive_check_amended_witness :
    rowNotes (evaluate_model_logic envVibeNone reqW [rowW]).leaderboard reqW.hash =
      some "Now computing vibe score" :=
  (C10_defensive_check_amended envVibeNone reqW [rowW] ⟨some (1/2), some (4/5), some 1⟩ 0
    1 (1/2) (4/5) ⟨none⟩ 0 (by simp [rowW, newQueuedRow])
    (by simp [retryFrom, envVibeNone, oracleAOk]) rfl rfl rfl
    (by simp [retryFrom, envVibeNone]) rfl).2.2.1

/-- Claim C7 is a code bug (line 260): on a failure of the final COMPLETED
write, the recovery call `update_leaderboard_status(request.hash, "FAILED",
failure_reason)` omits the leading `namespace` argument, so it raises
`AttributeError` before writing anything — the row is left RUNNING, not
FAILED.  The second half of the claim does hold: the worker loop catches the
exception and proceeds to the next queue item (here the following job still
reaches COMPLETED). -/
theorem C7_persistence_error_bug :
    (evaluate_model_logic envPersistFail reqW [rowW, rowW2]).response =
      .error finalUpdateRecoveryError ∧
    rowStatus (evaluate_model_logic envPersistFail reqW [rowW, rowW2]).leaderboard reqW.hash =
      some .RUNNING ∧
    (rowStatus (evaluate_model_logic envPersistFail reqW [rowW, rowW2]).leaderboard reqW.hash ==
      some Status.FAILED) = false ∧
    model_evaluation_worker [⟨reqW, envPersistFail⟩, ⟨reqW2, envHappy⟩] [rowW, rowW2] =
      model_evaluation_worker [⟨reqW2, envHappy⟩]
        (evaluate_model_logic envPersistFail reqW [rowW, rowW2]).leaderboard ∧
    rowStatus (model_evaluation_worker [⟨reqW, envPersistFail⟩, ⟨reqW2, envHappy⟩]
      [rowW, rowW2]) reqW2.hash = some .COMPLETED := by
  have hstatus : rowStatus (evaluate_model_logic envPersistFail reqW [rowW, rowW2]).leaderboard
      reqW.hash = some .RUNNING := by
    simp [evaluate_model_logic, retryFrom, envPersistFail, oracleAOk, oracleBOk, reqW, reqW2,
      rowW, rowW2, newQueuedRow, update_leaderboard_status, setRow, rowStatus, List.find?]
  have hne12 : hashW ≠ hashW2 := by decide
  have hne21 : hashW2 ≠ hashW := by decide
  refine ⟨?_, hstatus, by rw [hstatus]; rfl, rfl, ?_⟩
  · simp [evaluate_model_logic, retryFrom, envPersistFail, oracleAOk, oracleBOk, reqW, reqW2,
      rowW, rowW2, newQueuedRow, update_leaderboard_status, setRow]
  · simp [model_evaluation_worker, evaluate_model_logic, retryFrom, envPersistFail, envHappy,
      oracleAOk, oracleBOk, reqW, reqW2, rowW, rowW2, newQueuedRow, update_leaderboard_status,
      setRow, rowStatus, List.find?, hne12, hne21]

end DippyValidation
